import Mathlib

set_option maxRecDepth 4000

/-!
Shallow embedding of the core of the `rollforward` repository
(`table_finder.py`, `header_matcher.py`, `file_updater.py`), together with
theorems settling the frozen claims about it.

Python cell values are modelled by `CellVal` (None, a string, or a number);
Python `str(v)` is `pyStr`, `str.strip()` is `pyStrip`.
-/

/-- A spreadsheet cell value as the Python code sees it: `None`, a string,
or a number (numbers are modelled by integers). -/
inductive CellVal where
  | none
  | str (s : String)
  | num (n : Int)
deriving DecidableEq

/-- Python `str(v)` on a cell value. -/
def pyStr : CellVal → String
  | CellVal.none => "None"
  | CellVal.str s => s
  | CellVal.num n => toString n

/-- Python `s.strip()`: drop whitespace from both ends. -/
def pyStrip (s : String) : String :=
  String.mk (((s.data.dropWhile Char.isWhitespace).reverse.dropWhile Char.isWhitespace).reverse)

/-- Truthiness of `s.strip()` in Python: `false` iff the stripped string is empty. -/
def is_blank_str (s : String) : Bool := pyStrip s == ""

/-- The test `cell_value is not None and str(cell_value).strip()` used all over
`file_updater.py`. -/
def cellHasContent (v : CellVal) : Bool :=
  match v with
  | CellVal.none => false
  | v => !(is_blank_str (pyStr v))

/- ### RangeAddressing (`table_finder.py`, lines 505-584) -/

/-- The single error kind of the addressing utilities (`ValueError` in the
source, `InvalidAddress` in the spec). -/
inductive AddrErr where
  | invalidAddress
deriving DecidableEq

/-- Embedding of `column_string_to_number` (`table_finder.py:505`): folds
`result = result * 26 + (ord(char) - ord('A') + 1)` over the characters.
Note: the source performs no validation of the characters. -/
def column_string_to_number (col_str : String) : Int :=
  col_str.data.foldl (fun r c => r * 26 + ((c.toNat : Int) - 65 + 1)) 0

/-- Modelled from the spec (§4.1): `columnLetterToNumber(letters) -> integer`,
base-26 conversion with 'A'→1 … 'Z'→26, failing with `InvalidAddress` on
non-alphabetic input.  This definition follows the spec's words (the source
`column_string_to_number` does not validate); it is used to compare the code
against the claimed behaviour. -/
def columnLetterToNumberSpec (letters : String) : Except AddrErr Int :=
  if letters.data.all (fun c => 'A' ≤ c && c ≤ 'Z') then
    Except.ok (letters.data.foldl (fun r c => r * 26 + ((c.toNat : Int) - 64)) 0)
  else
    Except.error AddrErr.invalidAddress

/-- Character class `[A-Z]` of the regex in `parse_cell_reference`. -/
def isUpperAZ (c : Char) : Bool := 'A' ≤ c && c ≤ 'Z'

/-- Python `int()` on a string of digits. -/
def digitsToNat (ds : List Char) : Nat :=
  ds.foldl (fun n c => n * 10 + (c.toNat - 48)) 0

/-- Embedding of `parse_cell_reference` (`table_finder.py:528`): `re.match(r'([A-Z]+)(\d+)', ref)`
anchored at the start (trailing characters are ignored, as with `re.match`);
raises `ValueError` when the pattern does not match.  Returns `(row, col)`. -/
def parse_cell_reference (cell_ref : String) : Except AddrErr (Nat × Int) :=
  let letters := cell_ref.data.takeWhile isUpperAZ
  let afterLetters := cell_ref.data.drop letters.length
  let digits := afterLetters.takeWhile Char.isDigit
  if letters.isEmpty || digits.isEmpty then Except.error AddrErr.invalidAddress
  else Except.ok (digitsToNat digits, column_string_to_number (String.mk letters))

/-- Result record of `parse_excel_range` (`table_finder.py:552`). -/
structure RangeInfo where
  start_row : Nat
  end_row : Nat
  start_col : Int
  end_col : Int
deriving DecidableEq

instance {ε α : Type} [DecidableEq ε] [DecidableEq α] : DecidableEq (Except ε α) := fun x y =>
  match x, y with
  | Except.error e, Except.error f =>
      if h : e = f then Decidable.isTrue (by rw [h])
      else Decidable.isFalse (fun hc => h (by injection hc))
  | Except.ok a, Except.ok b =>
      if h : a = b then Decidable.isTrue (by rw [h])
      else Decidable.isFalse (fun hc => h (by injection hc))
  | Except.error _, Except.ok _ => Decidable.isFalse (fun hc => by injection hc)
  | Except.ok _, Except.error _ => Decidable.isFalse (fun hc => by injection hc)

/-- Python `str.split(sep)` for a one-character separator. -/
def splitOnChar (sep : Char) : List Char → List (List Char)
  | [] => [[]]
  | c :: cs =>
    let rest := splitOnChar sep cs
    if c = sep then [] :: rest
    else
      match rest with
      | [] => [[c]]
      | g :: gs => (c :: g) :: gs

/-- The two `parse_cell_reference` calls of `parse_excel_range`: the first
failure propagates (as the first Python exception raised would). -/
def parseBothSides (a b : List Char) : Except AddrErr RangeInfo :=
  match parse_cell_reference (String.mk a), parse_cell_reference (String.mk b) with
  | Except.error e, _ => Except.error e
  | Except.ok _, Except.error e => Except.error e
  | Except.ok sc, Except.ok ec => Except.ok ⟨sc.1, ec.1, sc.2, ec.2⟩

/-- Embedding of `parse_excel_range` (`table_finder.py:552`): raises `ValueError` when the
string holds no colon (or when splitting does not give exactly two parts, which
in Python fails the tuple unpacking), otherwise parses both sides as cell
references. -/
def parse_excel_range (range_str : String) : Except AddrErr RangeInfo :=
  if range_str.data.contains ':' then
    match splitOnChar ':' range_str.data with
    | [a, b] => parseBothSides a b
    | _ => Except.error AddrErr.invalidAddress
  else Except.error AddrErr.invalidAddress

/- ### Theorems for claims C9 and C10 -/

/-- C9 (counterexample): the claim says `columnLetterToNumber` fails with
`InvalidAddress` for every input that is not entirely alphabetic column
letters, rather than returning a number.  The source performs no validation:
on the non-alphabetic input `"1"` it returns the number `-15`, where the
spec-modelled behaviour demands failure. -/
theorem column_string_to_number_no_validation_cex :
    column_string_to_number "1" = (-15 : Int) ∧
    columnLetterToNumberSpec "1" = Except.error AddrErr.invalidAddress := by
  decide

/-- C9 (amended): `column_string_to_number` performs base-26 conversion
('A'→1, 'Z'→26, 'AA'→27) and agrees with the spec-modelled conversion on every
string of column letters A-Z; but non-alphabetic input is not rejected — the
same formula is folded over the characters and an integer is returned. -/
theorem column_string_to_number_base26 :
    (∀ s : String, s.data.all (fun c => 'A' ≤ c && c ≤ 'Z') = true →
      columnLetterToNumberSpec s = Except.ok (column_string_to_number s)) ∧
    column_string_to_number "A" = 1 ∧
    column_string_to_number "Z" = 26 ∧
    column_string_to_number "AA" = 27 := by
  refine ⟨?_, by decide, by decide, by decide⟩
  intro s hs
  have hf : (fun (r : Int) (c : Char) => r * 26 + ((c.toNat : Int) - 64)) =
      (fun (r : Int) (c : Char) => r * 26 + ((c.toNat : Int) - 65 + 1)) := by
    funext r c
    omega
  simp [columnLetterToNumberSpec, hs, column_string_to_number, hf]

/-- C9 witness: the amended theorem applied at the concrete input "AB". -/
theorem column_string_to_number_base26_witness :
    columnLetterToNumberSpec "AB" = Except.ok 28 := by
  have h := column_string_to_number_base26.1 "AB" (by decide)
  rw [h]
  decide

lemma parseBothSides_error (a b : List Char)
    (h : parse_cell_reference (String.mk a) = Except.error AddrErr.invalidAddress ∨
         parse_cell_reference (String.mk b) = Except.error AddrErr.invalidAddress) :
    parseBothSides a b = Except.error AddrErr.invalidAddress := by
  unfold parseBothSides
  cases hpa : parse_cell_reference (String.mk a) with
  | error e => cases e; rfl
  | ok sc =>
    cases hpb : parse_cell_reference (String.mk b) with
    | error e => cases e; rfl
    | ok ec =>
      rcases h with h | h
      · rw [hpa] at h
        exact Except.noConfusion h
      · rw [hpb] at h
        exact Except.noConfusion h

/-- C10: `parse_excel_range` splits on ':' and parses each side as a cell
reference: on "A6:V339" it returns start_row 6, end_row 339, start_col 1,
end_col 22; it fails when the argument contains no colon, and it fails when
either side fails cell-reference parsing. -/
theorem parse_excel_range_spec (s a b : String) :
    parse_excel_range "A6:V339" = Except.ok ⟨6, 339, 1, 22⟩ ∧
    (s.data.contains ':' = false →
      parse_excel_range s = Except.error AddrErr.invalidAddress) ∧
    (splitOnChar ':' s.data = [a.data, b.data] →
      (parse_cell_reference a = Except.error AddrErr.invalidAddress ∨
        parse_cell_reference b = Except.error AddrErr.invalidAddress) →
      parse_excel_range s = Except.error AddrErr.invalidAddress) := by
  refine ⟨by decide, ?_, ?_⟩
  · intro h
    unfold parse_excel_range
    rw [h]
    rfl
  · intro hsplit hfail
    unfold parse_excel_range
    by_cases hc : s.data.contains ':'
    · rw [hc, hsplit]
      exact parseBothSides_error a.data b.data hfail
    · rw [Bool.not_eq_true] at hc
      rw [hc]
      rfl

/-- C10 witness: the failure clauses of the theorem at concrete inputs (a
range with no colon, and a range whose right side has no digits). -/
theorem parse_excel_range_spec_witness :
    parse_excel_range "A6V339" = Except.error AddrErr.invalidAddress ∧
    parse_excel_range "X9:Y" = Except.error AddrErr.invalidAddress := by
  constructor
  · exact (parse_excel_range_spec "A6V339" "" "").2.1 (by decide)
  · exact (parse_excel_range_spec "X9:Y" "X9" "Y").2.2 (by decide) (Or.inr (by decide))

/- ### HeaderMatcher (`header_matcher.py`, lines 15-80) -/

/-- The table dictionaries consumed by `match_headers`; only the fields it
reads or stores are modelled. -/
structure PyTable where
  sheet : String
  headers : List String
deriving DecidableEq

/-- A match dictionary produced by `match_headers`. -/
structure HeaderMatchRec where
  from_table : PyTable
  to_table : PyTable
  from_header : String
  to_header : String
  confidence : ℚ
deriving DecidableEq

/-- Embedding of `match_headers` (`header_matcher.py:15`): for every previous (destination)
table and every current (source) table, every current header that is a member
of the previous table's headers yields one match with confidence 1.0.  The
source obtains `current_tables` from `find_tables(current_file_path)`; the
embedding takes the current table list directly. -/
def match_headers (previous_tables current_tables : List PyTable) : List HeaderMatchRec :=
  previous_tables.flatMap fun prev_table =>
    current_tables.flatMap fun curr_table =>
      (curr_table.headers.filter fun curr_header =>
          prev_table.headers.contains curr_header).map fun curr_header =>
        { from_table := curr_table, to_table := prev_table,
          from_header := curr_header, to_header := curr_header, confidence := 1 }

/-- C1 (counterexample): the claim says matches are emitted only for header
strings occurring once in both tables' header lists.  With destination headers
["A", "A"] and source headers ["A"], the code emits a match for "A" although
it occurs twice in the destination's headers. -/
theorem match_headers_once_in_both_cex :
    ¬ (∀ m ∈ match_headers [⟨"prev", ["A", "A"]⟩] [⟨"curr", ["A"]⟩],
        m.to_table.headers.count m.to_header = 1) := by
  decide

/-- C1 (amended): every emitted match has confidence 1.0, equal source and
destination header, and headers members of their tables; for one destination
table `d` and one source table `s`, the number of matches for a header `h`
equals the number of occurrences of `h` in the source headers when `h` appears
in the destination headers (so exactly one when `h` occurs once in the source
headers and is present in the destination's), and 0 otherwise; disjoint header
lists yield an empty match list. -/
theorem match_headers_exact_mode (dests srcs : List PyTable) (d s : PyTable) (h : String) :
    (∀ m ∈ match_headers dests srcs,
        m.confidence = 1 ∧ m.from_header = m.to_header ∧
        m.from_header ∈ m.from_table.headers ∧ m.to_header ∈ m.to_table.headers) ∧
    ((match_headers [d] [s]).countP (fun m => m.from_header == h) =
        if h ∈ d.headers then s.headers.count h else 0) ∧
    ((∀ x ∈ s.headers, x ∉ d.headers) → match_headers [d] [s] = []) := by
  refine ⟨?_, ?_, ?_⟩
  · intro m hm
    simp only [match_headers, List.mem_flatMap, List.mem_map, List.mem_filter] at hm
    obtain ⟨prev, _hprev, curr, _hcurr, x, ⟨hxmem, hxcont⟩, hmx⟩ := hm
    subst hmx
    refine ⟨rfl, rfl, hxmem, ?_⟩
    simpa using hxcont
  · have hrw : match_headers [d] [s] =
        (s.headers.filter fun x => d.headers.contains x).map fun x =>
          { from_table := s, to_table := d, from_header := x, to_header := x,
            confidence := 1 } := by
      simp [match_headers]
    rw [hrw, List.countP_map]
    by_cases hmem : h ∈ d.headers
    · rw [if_pos hmem]
      have hfun : ∀ x ∈ s.headers,
          (fun x => d.headers.contains x) x = true →
            ((fun m : HeaderMatchRec => m.from_header == h) ∘
              (fun x => { from_table := s, to_table := d, from_header := x,
                          to_header := x, confidence := (1 : ℚ) })) x = (x == h) := by
        intro x _ _
        rfl
      rw [List.countP_filter]
      have hpt : (fun x => ((x == h) && d.headers.contains x)) =
          (fun x => (x == h : Bool)) := by
        funext x
        by_cases hx : x = h
        · subst hx
          simp [hmem]
        · simp [hx]
      calc (s.headers.countP fun x =>
              ((fun m : HeaderMatchRec => m.from_header == h) ∘
                (fun x => { from_table := s, to_table := d, from_header := x,
                            to_header := x, confidence := (1 : ℚ) })) x
                && d.headers.contains x)
          = s.headers.countP fun x => ((x == h) && d.headers.contains x) := rfl
        _ = s.headers.countP fun x => (x == h : Bool) := by rw [hpt]
        _ = s.headers.count h := rfl
    · rw [if_neg hmem]
      rw [List.countP_filter]
      have hpt : (fun x =>
          ((fun m : HeaderMatchRec => m.from_header == h) ∘
            (fun x => { from_table := s, to_table := d, from_header := x,
                        to_header := x, confidence := (1 : ℚ) })) x
            && d.headers.contains x) = (fun _ => false) := by
        funext x
        by_cases hx : x = h
        · subst hx
          simp [hmem]
        · simp [hx]
      rw [hpt]
      simp
  · intro hdisj
    simp only [match_headers, List.flatMap_cons, List.flatMap_nil, List.append_nil]
    have : (s.headers.filter fun x => d.headers.contains x) = [] := by
      rw [List.filter_eq_nil_iff]
      intro x hx
      simpa using hdisj x hx
    rw [this]
    rfl

/-- C1 witness: the amended theorem at the "Revenue" scenario (exactly one
match, since "Revenue" occurs once in the source headers and is present in the
destination headers) and at disjoint header lists (empty match list). -/
theorem match_headers_exact_mode_witness :
    (match_headers [⟨"prev", ["Item", "Revenue"]⟩]
        [⟨"curr", ["Revenue", "Cost"]⟩]).countP
      (fun m => m.from_header == "Revenue") = 1 ∧
    match_headers [⟨"prev", ["C", "D"]⟩] [⟨"curr", ["A", "B"]⟩] = [] := by
  constructor
  · exact ((match_headers_exact_mode [] [] ⟨"prev", ["Item", "Revenue"]⟩
      ⟨"curr", ["Revenue", "Cost"]⟩ "Revenue").2.1).trans (by decide)
  · exact (match_headers_exact_mode [] [] ⟨"prev", ["C", "D"]⟩
      ⟨"curr", ["A", "B"]⟩ "x").2.2 (by decide)

/- ### TableDimensionCalculator (`file_updater.py`, lines 372-463) -/

/-- Helper `row_has_data`: the inner column loop of `calculate_table_dimension` —
does any cell of columns `1..max_col` in this row hold a non-blank value? -/
def row_has_data (cellAt : Nat → Nat → CellVal) (row maxCol : Nat) : Bool :=
  (List.range' 1 maxCol).any fun col => cellHasContent (cellAt row col)

/-- The row loop of `calculate_table_dimension`
(`for row_num in range(data_start_row, data_start_row + max_scan_rows)` with
`max_scan_rows = 1000`); `fuel` is the number of rows still to scan,
`rowNum` the current row, `actualMax` the running `actual_max_row` and
`streak` the running `empty_streak`. -/
def scan_rows (cellAt : Nat → Nat → CellVal) (maxCol limit : Nat) :
    Nat → Nat → Nat → Nat → Nat
  | 0, _, actualMax, _ => actualMax
  | fuel + 1, rowNum, actualMax, streak =>
    if row_has_data cellAt rowNum maxCol then
      scan_rows cellAt maxCol limit fuel (rowNum + 1) rowNum 0
    else if limit ≤ streak + 1 then actualMax
    else scan_rows cellAt maxCol limit fuel (rowNum + 1) actualMax (streak + 1)

/-- The parameter guard of `calculate_table_dimension`: an
`empty_streak_limit` outside `[1, 10]` is silently reset to 2. -/
def effStreakLimit (empty_streak_limit : Nat) : Nat :=
  if 1 ≤ empty_streak_limit ∧ empty_streak_limit ≤ 10 then empty_streak_limit else 2

/-- Embedding of `calculate_table_dimension` (`file_updater.py:372`): scan rows
`header_row+1 ..` (at most 1000 of them) over columns `1..len(headers)`,
tracking the last row with data and stopping once `empty_streak_limit`
consecutive blank rows are seen.  `table_info` is passed as its two used
fields `start_row` and `headers`. -/
def calculate_table_dimension (cellAt : Nat → Nat → CellVal) (start_row : Nat)
    (headers : List String) (empty_streak_limit : Nat) : Nat × Nat :=
  let limit := effStreakLimit empty_streak_limit
  let maxCol := headers.length
  (scan_rows cellAt maxCol limit 1000 (start_row + 1) start_row 0, maxCol)

lemma effStreakLimit_pos (l : Nat) : 1 ≤ effStreakLimit l := by
  unfold effStreakLimit
  split <;> omega

lemma effStreakLimit_le (l : Nat) : effStreakLimit l ≤ 10 := by
  unfold effStreakLimit
  split <;> omega

lemma scan_rows_data (cellAt : Nat → Nat → CellVal) (maxCol limit : Nat) :
    ∀ (d m rowNum acc streak : Nat),
      (∀ i < d + 1, row_has_data cellAt (rowNum + i) maxCol = true) →
      scan_rows cellAt maxCol limit (m + (d + 1)) rowNum acc streak =
        scan_rows cellAt maxCol limit m (rowNum + (d + 1)) (rowNum + d) 0 := by
  intro d
  induction d with
  | zero =>
    intro m rowNum acc streak hdata
    have h0 : row_has_data cellAt rowNum maxCol = true := by
      simpa using hdata 0 (by omega)
    show scan_rows cellAt maxCol limit (m + 1) rowNum acc streak = _
    simp [scan_rows, h0]
  | succ d ih =>
    intro m rowNum acc streak hdata
    have h0 : row_has_data cellAt rowNum maxCol = true := by
      simpa using hdata 0 (by omega)
    show scan_rows cellAt maxCol limit ((m + (d + 1)) + 1) rowNum acc streak = _
    rw [scan_rows]
    rw [if_pos h0]
    have hdata' : ∀ i < d + 1, row_has_data cellAt (rowNum + 1 + i) maxCol = true := by
      intro i hi
      have := hdata (i + 1) (by omega)
      have he : rowNum + (i + 1) = rowNum + 1 + i := by omega
      rwa [he] at this
    have := ih m (rowNum + 1) rowNum 0 hdata'
    rw [this]
    have e1 : rowNum + 1 + (d + 1) = rowNum + (d + 1 + 1) := by omega
    have e2 : rowNum + 1 + d = rowNum + (d + 1) := by omega
    rw [e1, e2]

lemma scan_rows_blank_break (cellAt : Nat → Nat → CellVal) (maxCol limit : Nat) :
    ∀ (n fuel rowNum acc streak : Nat),
      streak + n = limit → 1 ≤ n → n ≤ fuel →
      (∀ j < n, row_has_data cellAt (rowNum + j) maxCol = false) →
      scan_rows cellAt maxCol limit fuel rowNum acc streak = acc := by
  intro n
  induction n with
  | zero =>
    intro fuel rowNum acc streak _ h1 _ _
    omega
  | succ k ih =>
    intro fuel rowNum acc streak hlim _ hfuel hblank
    obtain ⟨f, rfl⟩ : ∃ f, fuel = f + 1 := ⟨fuel - 1, by omega⟩
    have h0 : row_has_data cellAt rowNum maxCol = false := by
      simpa using hblank 0 (by omega)
    rw [scan_rows, if_neg (by simp [h0])]
    by_cases hk : k = 0
    · subst hk
      rw [if_pos (by omega)]
    · rw [if_neg (by omega)]
      apply ih f (rowNum + 1) acc (streak + 1) (by omega) (by omega) (by omega)
      intro j hj
      have := hblank (j + 1) (by omega)
      have he : rowNum + (j + 1) = rowNum + 1 + j := by omega
      rwa [he] at this

lemma scan_rows_blank_fuel (cellAt : Nat → Nat → CellVal) (maxCol limit : Nat) :
    ∀ (fuel rowNum acc streak : Nat),
      streak + fuel ≤ limit →
      (∀ j < fuel, row_has_data cellAt (rowNum + j) maxCol = false) →
      scan_rows cellAt maxCol limit fuel rowNum acc streak = acc := by
  intro fuel
  induction fuel with
  | zero =>
    intro rowNum acc streak _ _
    rfl
  | succ f ih =>
    intro rowNum acc streak hle hblank
    have h0 : row_has_data cellAt rowNum maxCol = false := by
      simpa using hblank 0 (by omega)
    rw [scan_rows, if_neg (by simp [h0])]
    by_cases hl : limit ≤ streak + 1
    · rw [if_pos hl]
    · rw [if_neg hl]
      apply ih (rowNum + 1) acc (streak + 1) (by omega)
      intro j hj
      have := hblank (j + 1) (by omega)
      have he : rowNum + (j + 1) = rowNum + 1 + j := by omega
      rwa [he] at this

/-- C2 (amended): if the `k` rows after the header row each hold data within
columns `1..len(headers)`, and the (effective) `empty_streak_limit` rows
immediately after those are blank there, then — provided `k ≤ 1000`, the hard
scan cap of the source — `calculate_table_dimension` returns
`(header_row + k, len(headers))`, regardless of what exists further down
(`k = 0` gives `header_row` itself). -/
theorem calculate_table_dimension_blank_streak
    (cellAt : Nat → Nat → CellVal) (header_row k empty_streak_limit : Nat)
    (headers : List String)
    (hk : k ≤ 1000)
    (hdata : ∀ i < k, row_has_data cellAt (header_row + 1 + i) headers.length = true)
    (hblank : ∀ j < effStreakLimit empty_streak_limit,
        row_has_data cellAt (header_row + k + 1 + j) headers.length = false) :
    calculate_table_dimension cellAt header_row headers empty_streak_limit =
      (header_row + k, headers.length) := by
  unfold calculate_table_dimension
  simp only [Prod.mk.injEq, and_true]
  cases k with
  | zero =>
    apply scan_rows_blank_break cellAt headers.length
      (effStreakLimit empty_streak_limit) (effStreakLimit empty_streak_limit)
      1000 (header_row + 1) header_row 0 (by omega) (effStreakLimit_pos _)
      (le_trans (effStreakLimit_le _) (by omega))
    intro j hj
    have := hblank j hj
    have he : header_row + 0 + 1 + j = header_row + 1 + j := by omega
    rwa [he] at this
  | succ d =>
    have hfuel : (1000 : Nat) = (1000 - (d + 1)) + (d + 1) := by omega
    rw [hfuel]
    rw [scan_rows_data cellAt headers.length (effStreakLimit empty_streak_limit)
      d (1000 - (d + 1)) (header_row + 1) header_row 0 (by
        intro i hi
        exact hdata i hi)]
    have hacc : header_row + 1 + d = header_row + (d + 1) := by omega
    have hrow : header_row + 1 + (d + 1) = header_row + (d + 1) + 1 := by omega
    rw [hacc, hrow]
    have hblank' : ∀ j < effStreakLimit empty_streak_limit,
        row_has_data cellAt (header_row + (d + 1) + 1 + j) headers.length = false := by
      intro j hj
      exact hblank j hj
    by_cases hcase : effStreakLimit empty_streak_limit ≤ 1000 - (d + 1)
    · exact scan_rows_blank_break cellAt headers.length
        (effStreakLimit empty_streak_limit) (effStreakLimit empty_streak_limit)
        (1000 - (d + 1)) (header_row + (d + 1) + 1) (header_row + (d + 1)) 0
        (by omega) (effStreakLimit_pos _) hcase hblank'
    · exact scan_rows_blank_fuel cellAt headers.length
        (effStreakLimit empty_streak_limit) (1000 - (d + 1))
        (header_row + (d + 1) + 1) (header_row + (d + 1)) 0 (by omega)
        (fun j hj => hblank' j (by omega))

/-- C2 witness: a sheet with data in rows 2-3 (columns 1-2) and blanks below;
with header row 1, two headers and the default streak limit 2, the theorem
gives `(3, 2)`. -/
theorem calculate_table_dimension_blank_streak_witness :
    calculate_table_dimension
      (fun r c => if r ≤ 3 && c ≤ 2 then CellVal.str "x" else CellVal.none)
      1 ["a", "b"] 2 = (3, 2) := by
  exact calculate_table_dimension_blank_streak
    (fun r c => if r ≤ 3 && c ≤ 2 then CellVal.str "x" else CellVal.none)
    1 2 2 ["a", "b"] (by omega) (by decide) (by decide)

/-- C2 (counterexample): the claim holds only up to the hard 1000-row scan
cap.  With header row 1, rows 2..1002 all holding data (k = 1001) and rows
1003-1004 blank, the claim demands `actual_max_row = 1 + 1001 = 1002`, but
the source stops scanning at row 1001 and returns `(1001, 1)`. -/
theorem calculate_table_dimension_cap_cex :
    (∀ i < 1001,
      row_has_data (fun r _ => if r ≤ 1002 then CellVal.str "x" else CellVal.none)
        (1 + 1 + i) 1 = true) ∧
    (∀ j < effStreakLimit 2,
      row_has_data (fun r _ => if r ≤ 1002 then CellVal.str "x" else CellVal.none)
        (1 + 1001 + 1 + j) 1 = false) ∧
    calculate_table_dimension
        (fun r _ => if r ≤ 1002 then CellVal.str "x" else CellVal.none) 1 ["H"] 2 ≠
      (1 + 1001, 1) := by
  decide

/- ### RollforwardStatusTracker (`file_updater.py`, lines 869-1080) -/

/-- A tracked cell as stored in `red_cells_info` by `mark_back_data_red`
(`file_updater.py:828`): row, column, the cell's value and its status. -/
inductive CellStatus where
  | pending
  | completed
  | failed
deriving DecidableEq

structure TrackedCell where
  row : Nat
  col : Nat
  value : CellVal
  status : CellStatus
deriving DecidableEq

/-- The `from_table` dictionary inside a successful-match record as read by
`_check_if_cell_was_updated` via `.get`: both fields may be absent. -/
structure UTable where
  sheet : Option String := Option.none
  headers : List String := []
deriving DecidableEq

/-- A successful-match record as read by `_check_if_cell_was_updated` via
`.get`: every key may be absent (`None`). -/
structure UMatch where
  from_sheet : Option String := Option.none
  from_row : Option Nat := Option.none
  from_col : Option Nat := Option.none
  from_table : Option UTable := Option.none
deriving DecidableEq

/-- Embedding of `_check_if_cell_was_updated` (`file_updater.py:976`): rule (a), an exact
provenance comparison against `from_sheet`/`from_row`/`from_col`; then rule
(b), the coarse heuristic — any match whose `from_table` sits on this sheet
covers every cell whose column index is at most the table's header count. -/
def check_if_cell_was_updated (cell_info : TrackedCell)
    (successful_matches : List UMatch) (sheet_name : String) : Bool :=
  if successful_matches.any (fun m =>
      m.from_sheet == Option.some sheet_name &&
        m.from_row == Option.some cell_info.row &&
        m.from_col == Option.some cell_info.col) then
    true
  else
    successful_matches.any fun m =>
      (m.from_table.getD {}).sheet == Option.some sheet_name &&
        decide (cell_info.col ≤ (m.from_table.getD {}).headers.length)

/-- C3: a pending cell is judged successfully rolled forward iff some match
carries explicit provenance (sheet, row, col) equal to the cell's, or some
match's source table is on the cell's sheet and the cell's column index is at
most that table's header count; rule (b) mentions no row. -/
theorem check_if_cell_was_updated_iff (cell_info : TrackedCell)
    (successful_matches : List UMatch) (sheet_name : String) :
    check_if_cell_was_updated cell_info successful_matches sheet_name = true ↔
      ((∃ m ∈ successful_matches,
          m.from_sheet = Option.some sheet_name ∧
            m.from_row = Option.some cell_info.row ∧
            m.from_col = Option.some cell_info.col) ∨
        (∃ m ∈ successful_matches,
          (m.from_table.getD {}).sheet = Option.some sheet_name ∧
            cell_info.col ≤ (m.from_table.getD {}).headers.length)) := by
  unfold check_if_cell_was_updated
  by_cases h1 : successful_matches.any (fun m =>
      m.from_sheet == Option.some sheet_name &&
        m.from_row == Option.some cell_info.row &&
        m.from_col == Option.some cell_info.col)
  · rw [if_pos h1]
    simp only [List.any_eq_true, Bool.and_eq_true, beq_iff_eq] at h1
    obtain ⟨m, hm, ⟨hs, hr⟩, hc⟩ := h1
    exact iff_of_true rfl (Or.inl ⟨m, hm, hs, hr, hc⟩)
  · rw [if_neg h1]
    simp only [List.any_eq_true, Bool.and_eq_true, beq_iff_eq, decide_eq_true_eq]
    constructor
    · rintro ⟨m, hm, hsheet, hcol⟩
      exact Or.inr ⟨m, hm, hsheet, hcol⟩
    · rintro (⟨m, hm, hs, hr, hc⟩ | ⟨m, hm, hsheet, hcol⟩)
      · exfalso
        apply h1
        simp only [List.any_eq_true, Bool.and_eq_true, beq_iff_eq]
        exact ⟨m, hm, ⟨hs, hr⟩, hc⟩
      · exact ⟨m, hm, hsheet, hcol⟩

/-- A worksheet of the destination workbook as `update_rollforward_status`
uses it: its name and its cell values. -/
structure Sheet where
  name : String
  cell : Nat → Nat → CellVal

/-- Lookup `wb[sheet_name]` combined with the `sheet_name in wb.sheetnames` test. -/
def lookupSheet (wb : List Sheet) (sheet_name : String) : Option Sheet :=
  wb.find? fun sh => sh.name == sheet_name

/-- bijective base-26 column letters, with fuel for structural recursion
(models `openpyxl`'s `cell.coordinate` column part: 1→"A", 2→"B", 27→"AA"). -/
def columnLetterAux : Nat → Nat → String
  | 0, _ => ""
  | _ + 1, 0 => ""
  | fuel + 1, n + 1 => columnLetterAux fuel (n / 26) ++ String.mk [Char.ofNat (65 + n % 26)]

def get_column_letter (n : Nat) : String := columnLetterAux n n

/-- Address `cell.coordinate` of openpyxl, prefixed with the sheet name as in
`f"{sheet_name}!{cell.coordinate}"`. -/
def cell_address (sheet_name : String) (row col : Nat) : String :=
  sheet_name ++ "!" ++ get_column_letter col ++ toString row

/-- The per-cell body of the loop in `update_rollforward_status`
(`file_updater.py:928-939`): successful cells become `completed`, the rest
become `failed`. -/
def set_cell_status (successful_matches : List UMatch) (sheet_name : String)
    (c : TrackedCell) : TrackedCell :=
  if check_if_cell_was_updated c successful_matches sheet_name then
    { c with status := CellStatus.completed }
  else
    { c with status := CellStatus.failed }

/-- A record of `manual_adjustment_cells` (`file_updater.py:941` and `:1037`). -/
structure ManualCell where
  sheet : String
  row : Nat
  col : Nat
  cell_address : String
  value : CellVal
deriving DecidableEq

/-- The result dictionary of `update_rollforward_status`. -/
structure RollResult where
  green_cells : Nat
  red_cells : Nat
  manual_adjustment_needed : List ManualCell
deriving DecidableEq

/-- The per-sheet body of `update_rollforward_status`: sheets absent from the
workbook are skipped (`continue`), otherwise every tracked cell's status is
set from the successful-match list. -/
def update_status_pair (wb : List Sheet) (successful_matches : List UMatch)
    (p : String × List TrackedCell) : String × List TrackedCell :=
  match lookupSheet wb p.1 with
  | Option.none => p
  | Option.some _ => (p.1, p.2.map (set_cell_status successful_matches p.1))

/-- Embedding of `update_rollforward_status` (`file_updater.py:869`): returns the mutated
`red_cells_info` together with the result report (green count, remaining red
count, manual-adjustment list whose values are read from the worksheet). -/
def update_rollforward_status (wb : List Sheet)
    (red_cells_info : List (String × List TrackedCell))
    (successful_matches : List UMatch) :
    List (String × List TrackedCell) × RollResult :=
  if red_cells_info.isEmpty then (red_cells_info, ⟨0, 0, []⟩)
  else
    let newRed := red_cells_info.map (update_status_pair wb successful_matches)
    let green := (red_cells_info.map fun p =>
      match lookupSheet wb p.1 with
      | Option.none => 0
      | Option.some _ =>
        (p.2.filter fun c =>
          check_if_cell_was_updated c successful_matches p.1).length).sum
    let manual := red_cells_info.flatMap fun p =>
      match lookupSheet wb p.1 with
      | Option.none => []
      | Option.some sh =>
        (p.2.filter fun c =>
            !(check_if_cell_was_updated c successful_matches p.1)).map fun c =>
          ⟨p.1, c.row, c.col, cell_address p.1 c.row c.col, sh.cell c.row c.col⟩
    (newRed, ⟨green, manual.length, manual⟩)

lemma check_set_cell_status (m : List UMatch) (n : String) (c : TrackedCell) :
    ∀ st, check_if_cell_was_updated { c with status := st } m n =
      check_if_cell_was_updated c m n := by
  intro st
  rfl

lemma set_cell_status_idem (m : List UMatch) (n : String) (c : TrackedCell) :
    set_cell_status m n (set_cell_status m n c) = set_cell_status m n c := by
  unfold set_cell_status
  by_cases h : check_if_cell_was_updated c m n
  · rw [if_pos h, if_pos ((check_set_cell_status m n c CellStatus.completed).trans h)]
  · rw [if_neg h, if_neg fun hc =>
      h ((check_set_cell_status m n c CellStatus.failed).symm.trans hc)]

lemma update_status_pair_idem (wb : List Sheet) (m : List UMatch)
    (p : String × List TrackedCell) :
    update_status_pair wb m (update_status_pair wb m p) = update_status_pair wb m p := by
  unfold update_status_pair
  cases hl : lookupSheet wb p.1 with
  | none => rw [hl]
  | some sh =>
    simp only
    rw [hl]
    simp only [List.map_map]
    rw [show ((set_cell_status m p.1) ∘ (set_cell_status m p.1)) =
        set_cell_status m p.1 from funext fun c => set_cell_status_idem m p.1 c]

/-- C7: running the status-update pass twice with the same red-cell set and
the same successful-match list assigns the same statuses as running it once —
`completed`/`failed` are terminal for the run. -/
theorem update_rollforward_status_terminal (wb : List Sheet)
    (red_cells_info : List (String × List TrackedCell))
    (successful_matches : List UMatch) :
    (update_rollforward_status wb
        (update_rollforward_status wb red_cells_info successful_matches).1
        successful_matches).1 =
      (update_rollforward_status wb red_cells_info successful_matches).1 := by
  by_cases hred : red_cells_info.isEmpty
  · simp [update_rollforward_status, hred]
  · have h1 : (update_rollforward_status wb red_cells_info successful_matches).1 =
        red_cells_info.map (update_status_pair wb successful_matches) := by
      simp [update_rollforward_status, hred]
    rw [h1]
    have h2 : (red_cells_info.map (update_status_pair wb successful_matches)).isEmpty =
        false := by
      cases red_cells_info with
      | nil => simp at hred
      | cons a l => rfl
    simp only [update_rollforward_status, h2, Bool.false_eq_true, if_false,
      List.map_map]
    rw [show ((update_status_pair wb successful_matches) ∘
        (update_status_pair wb successful_matches)) =
      update_status_pair wb successful_matches from
        funext fun p => update_status_pair_idem wb successful_matches p]

/-- The cell-collection phase of `generate_manual_adjustment_report`
(`file_updater.py:1023-1047`): nothing is collected unless both
`red_cells_info` and `successful_matches` are non-empty (Python truthiness)
and a workbook was loaded; sheets absent from the workbook are skipped; a cell
is collected when its status is already `failed` or
`_check_if_cell_was_updated` denies it.  The record's value comes from
`cell_info.get('value', cell.value)`, and `mark_back_data_red` always stores
the `value` key, so the tracked value is used; the workbook is otherwise only
consulted for sheet names and cell coordinates. -/
def manual_adjustment_cells (wb_names : Option (List String))
    (red_cells_info : List (String × List TrackedCell))
    (successful_matches : List UMatch) : List ManualCell :=
  if red_cells_info.isEmpty || successful_matches.isEmpty then []
  else
    match wb_names with
    | Option.none => []
    | Option.some names =>
      red_cells_info.flatMap fun p =>
        if names.contains p.1 then
          (p.2.filter fun c =>
              c.status == CellStatus.failed ||
                !(check_if_cell_was_updated c successful_matches p.1)).map fun c =>
            ⟨p.1, c.row, c.col, cell_address p.1 c.row c.col, c.value⟩
        else []

/-- Python `"\n".join(lines)`. -/
def joinLines : List String → String
  | [] => ""
  | [l] => l
  | l :: ls => l ++ "\n" ++ joinLines ls

/-- The `by_sheet` grouping of `generate_manual_adjustment_report`
(`file_updater.py:1060-1065`): a dict in first-appearance order. -/
def groupBySheet (cells : List ManualCell) : List (String × List ManualCell) :=
  cells.foldl (fun acc c =>
    if acc.any (fun p => p.1 == c.sheet) then
      acc.map fun p => if p.1 == c.sheet then (p.1, p.2 ++ [c]) else p
    else acc ++ [(c.sheet, [c])]) []

/-- Embedding of `generate_manual_adjustment_report` (`file_updater.py:1010`): the canned
all-succeeded message when no cell was collected, otherwise the header lines,
the per-sheet listing and the fixed remediation checklist. -/
def generate_manual_adjustment_report (wb_names : Option (List String))
    (red_cells_info : List (String × List TrackedCell))
    (successful_matches : List UMatch) : String :=
  let cells := manual_adjustment_cells wb_names red_cells_info successful_matches
  if cells.isEmpty then
    "🎉 모든 백데이터가 성공적으로 롤포워딩되었습니다!"
  else
    joinLines
      (["⚠️ 수기조정이 필요한 항목이 있습니다.",
        "📊 총 " ++ toString cells.length ++ "개의 셀이 자동 롤포워딩되지 않았습니다.",
        "",
        "📍 수기조정 필요 위치:"] ++
      (groupBySheet cells).flatMap (fun p =>
        ("\n🔶 워크시트: " ++ p.1) ::
          p.2.map fun c => "   • " ++ c.cell_address ++ ": " ++ pyStr c.value) ++
      ["",
        "💡 해결 방법:",
        "1. Excel 파일을 열어서 빨간색으로 표시된 셀들을 확인하세요",
        "2. 당기 PBC 파일에서 해당하는 값을 찾아 수동으로 복사하세요",
        "3. 또는 헤더 이름을 정확히 일치시켜 다시 롤포워딩을 시도하세요"])

/-- The failed tracked cells of a red-cell set, with their sheets, in order. -/
def failed_cells (red_cells_info : List (String × List TrackedCell)) :
    List (String × TrackedCell) :=
  red_cells_info.flatMap fun p =>
    (p.2.filter fun c => c.status == CellStatus.failed).map fun c => (p.1, c)

/-- C8 (counterexample): the claim says the report lists exactly the failed
tracked cells and returns the canned all-succeeded message only when none
remain.  With an empty successful-match list the source's guard skips
collection entirely: a failed cell remains at Sheet1!B5, yet the canned
all-succeeded message is returned and nothing is listed. -/
theorem generate_manual_adjustment_report_empty_matches_cex :
    failed_cells [("Sheet1", [⟨5, 2, CellVal.num 99, CellStatus.failed⟩])] ≠ [] ∧
    manual_adjustment_cells (Option.some ["Sheet1"])
        [("Sheet1", [⟨5, 2, CellVal.num 99, CellStatus.failed⟩])] [] = [] ∧
    generate_manual_adjustment_report (Option.some ["Sheet1"])
        [("Sheet1", [⟨5, 2, CellVal.num 99, CellStatus.failed⟩])] [] =
      "🎉 모든 백데이터가 성공적으로 롤포워딩되었습니다!" := by
  decide

/-- C8 (amended): provided both the red-cell info and the successful-match
list are non-empty, the loaded workbook's sheet names include every tracked
sheet, and the cells' statuses agree with the same match list (every cell not
`failed` is covered by it — as after `update_rollforward_status` for the same
run), the report collects exactly the failed tracked cells, grouped in sheet
order, each with its sheet-qualified address and value, omitting every
completed cell; and when no failed cell remains the canned all-succeeded
message is returned. -/
theorem generate_manual_adjustment_report_failed (names : List String)
    (red_cells_info : List (String × List TrackedCell))
    (successful_matches : List UMatch)
    (hred : red_cells_info.isEmpty = false)
    (hm : successful_matches.isEmpty = false)
    (hnames : ∀ p ∈ red_cells_info, names.contains p.1 = true)
    (hstatus : ∀ p ∈ red_cells_info, ∀ c ∈ p.2, c.status ≠ CellStatus.failed →
        check_if_cell_was_updated c successful_matches p.1 = true) :
    manual_adjustment_cells (Option.some names) red_cells_info successful_matches =
      (failed_cells red_cells_info).map (fun pc =>
        ⟨pc.1, pc.2.row, pc.2.col, cell_address pc.1 pc.2.row pc.2.col, pc.2.value⟩) ∧
    (failed_cells red_cells_info = [] →
      generate_manual_adjustment_report (Option.some names) red_cells_info
          successful_matches =
        "🎉 모든 백데이터가 성공적으로 롤포워딩되었습니다!") := by
  have hmain : manual_adjustment_cells (Option.some names) red_cells_info
      successful_matches =
      (failed_cells red_cells_info).map (fun pc =>
        ⟨pc.1, pc.2.row, pc.2.col, cell_address pc.1 pc.2.row pc.2.col, pc.2.value⟩) := by
    unfold manual_adjustment_cells failed_cells
    rw [hred, hm]
    simp only [Bool.or_self, Bool.false_eq_true, if_false, List.map_flatMap]
    apply List.flatMap_congr ?_
    intro p hp
    rw [if_pos (hnames p hp)]
    rw [List.filter_congr (fun c hc => ?_), List.map_map]
    · rfl
    · by_cases hf : c.status = CellStatus.failed
      · simp [hf]
      · simp [hf, hstatus p hp c hc hf]
  refine ⟨hmain, fun hempty => ?_⟩
  unfold generate_manual_adjustment_report
  rw [hmain, hempty]
  rfl

/-- C8 witness: one completed cell (covered by a match on its sheet) and one
failed cell at row 5, column 2 of Sheet1 — the collected list is exactly the
failed cell with address "Sheet1!B5". -/
theorem generate_manual_adjustment_report_failed_witness :
    manual_adjustment_cells (Option.some ["Sheet1"])
        [("Sheet1", [⟨4, 1, CellVal.num 10, CellStatus.completed⟩,
                     ⟨5, 2, CellVal.num 99, CellStatus.failed⟩])]
        [{ from_table := Option.some ⟨Option.some "Sheet1", ["H1", "H2"]⟩ }] =
      [⟨"Sheet1", 5, 2, "Sheet1!B5", CellVal.num 99⟩] := by
  have h := (generate_manual_adjustment_report_failed ["Sheet1"]
    [("Sheet1", [⟨4, 1, CellVal.num 10, CellStatus.completed⟩,
                 ⟨5, 2, CellVal.num 99, CellStatus.failed⟩])]
    [{ from_table := Option.some ⟨Option.some "Sheet1", ["H1", "H2"]⟩ }]
    rfl rfl (by decide) (by decide)).1
  rw [h]
  decide

/- ### TableDetector (`table_finder.py`, lines 23-503)

Python floats are modelled by rationals (`0.95` as `19/20`, `0.8` as `4/5`,
`0.9` as `9/10`, `0.3` as `3/10`, `0.1` as `1/10`); the comparisons and `min`
used by the source are exact at these values. -/

/-- A worksheet as `find_tables` consumes it: its title, its
`auto_filter.ref` when an AutoFilter is active (absent or empty otherwise),
the result of `calculate_dimension()` as `range_boundaries` bounds
`(min_col, min_row, max_col, max_row)` — `Option.none` modelling a falsy
dimension, whose sheet yields no heuristic candidates — and its cell values.
Exception fallbacks of the source (default scan window, per-cell errors)
are unreachable here because the model's accessors are total. -/
structure Worksheet where
  name : String
  autoFilterRef : Option String := Option.none
  dimension : Option (Nat × Nat × Nat × Nat) := Option.none
  cell : Nat → Nat → CellVal

/-- The `'type'` key of a table dictionary. -/
inductive CandType where
  | autofilter_range
  | heuristic
deriving DecidableEq

/-- A table candidate dictionary; keys only one of the two origins writes are
optional with the Python defaults. -/
structure Candidate where
  ctype : CandType
  sheet : String := ""
  ref : Option String := Option.none
  start_row : Nat
  end_row : Nat
  start_col : Option Int := Option.none
  end_col : Option Int := Option.none
  confidence : ℚ
  file_path : String := ""
  headers : List String
deriving DecidableEq

/-- Test `cell.value is None or not str(cell.value).strip()` — the blank-cell test
of the merged-header helpers. -/
def is_blank_val (v : CellVal) : Bool :=
  match v with
  | CellVal.none => true
  | v => is_blank_str (pyStr v)

/-- Embedding of `_is_likely_merged_cell` (`table_finder.py:267`): a valued cell is taken
as merged when the next header cell is blank. -/
def is_likely_merged_cell (header_cells : List CellVal) (current_index : Nat) : Bool :=
  match header_cells.get? (current_index + 1) with
  | Option.some next_cell => is_blank_val next_cell
  | Option.none => false

/-- Embedding of `_is_likely_merged_continuation` (`table_finder.py:295`): a blank cell
continues a merge when the previous cell is valued, or some cell 2-3 back is
valued with only blanks in between. -/
def is_likely_merged_continuation (header_cells : List CellVal)
    (current_index : Nat) : Bool :=
  let prev_ok :=
    if 0 < current_index then
      match header_cells.get? (current_index - 1) with
      | Option.some prev_cell => !(is_blank_val prev_cell)
      | Option.none => false
    else false
  if prev_ok then true
  else
    (List.range' 2 (min 4 (current_index + 1) - 2)).any fun back_step =>
      match header_cells.get? (current_index - back_step) with
      | Option.some back_cell =>
        !(is_blank_val back_cell) &&
          ((List.range' (current_index - back_step + 1) (back_step - 1)).all
            fun check_idx =>
              match header_cells.get? check_idx with
              | Option.some check_cell => is_blank_val check_cell
              | Option.none => true)
      | Option.none => false

/-- The header-cell loop of `extract_headers_from_range`
(`table_finder.py:197-221`): valued non-blank cells are recorded and become
the `last_valid_header`; blank-but-valued cells repeat it under
`_is_likely_merged_cell`, `None` cells under `_is_likely_merged_continuation`;
otherwise an empty string is appended. -/
def extract_header_loop (header_cells : List CellVal) :
    Nat → Option String → Nat → List String
  | _, _, 0 => []
  | i, last_valid, fuel + 1 =>
    match header_cells.get? i with
    | Option.none => []
    | Option.some cv =>
      match cv with
      | CellVal.none =>
        (match last_valid with
         | Option.some lv =>
           if is_likely_merged_continuation header_cells i then lv else ""
         | Option.none => "") ::
          extract_header_loop header_cells (i + 1) last_valid fuel
      | v =>
        let header_value := pyStrip (pyStr v)
        if header_value == "" then
          (match last_valid with
           | Option.some lv =>
             if is_likely_merged_cell header_cells i then lv else ""
           | Option.none => "") ::
            extract_header_loop header_cells (i + 1) last_valid fuel
        else
          header_value ::
            extract_header_loop header_cells (i + 1) (Option.some header_value) fuel

/-- Embedding of `extract_headers_from_range` (`table_finder.py:146`): parse the range
(`range_boundaries` is modelled by `parse_excel_range`; its failure is caught
by the outer handler, giving `[]`), run the merged-header loop over the header
row, keep the non-blank results; if none survive, the `ValueError` raised is
caught and the simple positional fallback read is returned. -/
def extract_headers_from_range (sheet : Worksheet) (range_ref : String) :
    List String :=
  match parse_excel_range range_ref with
  | Except.error _ => []
  | Except.ok ri =>
    let cols := List.range' ri.start_col.toNat (ri.end_col.toNat + 1 - ri.start_col.toNat)
    let header_cells := cols.map fun col => sheet.cell ri.start_row col
    let headers := extract_header_loop header_cells 0 Option.none header_cells.length
    let valid_headers := headers.filter fun h => !(is_blank_str h)
    if valid_headers.isEmpty then
      (header_cells.filter fun v =>
          !(v == CellVal.none) && !(is_blank_str (pyStr v))).map
        fun v => pyStrip (pyStr v)
    else valid_headers

/-- Test `isinstance(v, str) and v.strip()` — the text-cell test of the heuristic
header scan. -/
def isTextCell (v : CellVal) : Bool :=
  match v with
  | CellVal.str s => !(is_blank_str s)
  | _ => false

/-- Test `v not in (None, "", 0)` — the data-cell test of the heuristic scan
(note: a whitespace-only string counts as data here). -/
def isNonEmptyData (v : CellVal) : Bool :=
  match v with
  | CellVal.none => false
  | CellVal.str s => !(s == "")
  | CellVal.num n => !(n == 0)

/-- One `iter_rows` row read over the scanned column window. -/
def rowCells (sheet : Worksheet) (row minCol scanMaxCols : Nat) : List CellVal :=
  (List.range' minCol (scanMaxCols + 1 - minCol)).map fun col => sheet.cell row col

/-- The data-row loop of the heuristic scan (`table_finder.py:432-461`):
rows `start_row+1 .. min(start_row+15, scan_max_rows)` are counted while at
least 30% of the row's cells hold data; the count stops at the first row
below the threshold. -/
def countDataRows (sheet : Worksheet)
    (start_row minCol scanMaxCols scanMaxRows total_cells : Nat) : Nat :=
  ((List.range' (start_row + 1)
      (min (start_row + 16) (scanMaxRows + 1) - (start_row + 1))).takeWhile
    fun r =>
      decide ((3 : ℚ) / 10 ≤
        (((rowCells sheet r minCol scanMaxCols).filter isNonEmptyData).length : ℚ) /
          total_cells)).length

/-- The loop body of `find_tabular_ranges_by_heuristics_optimized` for one
candidate header row (`table_finder.py:395-494`): skip unless at least 3 text
cells and a text ratio of at least 0.9, then require at least 2 data rows and
emit the candidate with `confidence = min(0.95, text_ratio + 0.1 × data_rows)`
and the row's non-blank values as headers (the `ref` string uses
`chr(64 + col)` as the source does). -/
def heuristic_candidate_at (sheet : Worksheet)
    (minCol scanMaxCols scanMaxRows : Nat) (start_row : Nat) : Option Candidate :=
  let row_data := rowCells sheet start_row minCol scanMaxCols
  let total_cells := row_data.length
  let text_count := (row_data.filter isTextCell).length
  if text_count < 3 then Option.none
  else
    let text_ratio : ℚ := if 0 < total_cells then (text_count : ℚ) / total_cells else 0
    if text_ratio < 9/10 then Option.none
    else
      let continuous_data_count :=
        countDataRows sheet start_row minCol scanMaxCols scanMaxRows total_cells
      if 2 ≤ continuous_data_count then
        let headers := (row_data.filter fun v =>
            !(v == CellVal.none) && !(is_blank_str (pyStr v))).map
          fun v => pyStrip (pyStr v)
        Option.some
          { ctype := CandType.heuristic,
            start_row := start_row,
            end_row := start_row + continuous_data_count,
            ref := Option.some
              (String.mk [Char.ofNat (64 + minCol)] ++ toString start_row ++ ":" ++
                String.mk [Char.ofNat (64 + minCol + headers.length - 1)] ++
                toString (start_row + continuous_data_count)),
            confidence := min (19/20) (text_ratio + (continuous_data_count : ℚ) * (1/10)),
            headers := headers }
      else Option.none

/-- Embedding of `find_tabular_ranges_by_heuristics_optimized` (`table_finder.py:338`):
restrict the scan to the sheet's dimension, capped at 1000 rows × 50 columns,
and try every row of the window as a header candidate.  A falsy dimension
yields no candidates. -/
def find_tabular_ranges_by_heuristics_optimized (ws : Worksheet) : List Candidate :=
  match ws.dimension with
  | Option.none => []
  | Option.some (minCol, minRow, maxCol, maxRow) =>
    let scan_max_rows := min maxRow (minRow + 1000)
    let scan_max_cols := min maxCol (minCol + 50)
    (List.range' minRow (scan_max_rows + 1 - minRow)).filterMap
      (heuristic_candidate_at ws minCol scan_max_cols scan_max_rows)

/-- The AutoFilter phase of `find_tables` (`table_finder.py:66-99`): every
sheet with an active filter range contributes one candidate with fixed
confidence 0.8; a range-parsing exception skips that sheet's candidate. -/
def autofilter_tables (wb : List Worksheet) (file_path : String) : List Candidate :=
  wb.filterMap fun sheet =>
    match sheet.autoFilterRef with
    | Option.none => Option.none
    | Option.some ref =>
      match parse_excel_range ref with
      | Except.error _ => Option.none
      | Except.ok ri =>
        Option.some
          { ctype := CandType.autofilter_range,
            sheet := sheet.name,
            ref := Option.some ref,
            start_row := ri.start_row,
            end_row := ri.end_row,
            start_col := Option.some ri.start_col,
            end_col := Option.some ri.end_col,
            confidence := 4/5,
            file_path := file_path,
            headers := extract_headers_from_range sheet ref }

/-- The heuristic phase of `find_tables` (`table_finder.py:107-126`): each
sheet's heuristic candidates get the sheet name and file path filled in. -/
def heuristic_tables (wb : List Worksheet) (file_path : String) : List Candidate :=
  wb.flatMap fun sheet =>
    (find_tabular_ranges_by_heuristics_optimized sheet).map fun c =>
      { c with sheet := sheet.name, file_path := file_path }

/-- Embedding of `find_tables` (`table_finder.py:23`): AutoFilter candidates over all
sheets, then heuristic candidates over all sheets, sorted by confidence
descending (`insertionSort` models Python's stable
`sort(key=confidence, reverse=True)`). -/
def find_tables (wb : List Worksheet) (file_path : String) : List Candidate :=
  List.insertionSort (fun a b => b.confidence ≤ a.confidence)
    (autofilter_tables wb file_path ++ heuristic_tables wb file_path)

lemma heuristic_candidate_at_shape (sheet : Worksheet)
    (minCol scanMaxCols scanMaxRows start_row : Nat) (c : Candidate)
    (h : heuristic_candidate_at sheet minCol scanMaxCols scanMaxRows start_row =
      Option.some c) :
    c.ctype = CandType.heuristic ∧
    ∃ (tr : ℚ) (n : Nat), 9/10 ≤ tr ∧ 2 ≤ n ∧
      c.confidence = min (19/20) (tr + (n : ℚ) * (1/10)) ∧
      c.end_row = c.start_row + n := by
  simp only [heuristic_candidate_at] at h
  set R := rowCells sheet start_row minCol scanMaxCols with hR
  set tc := (R.filter isTextCell).length with htc
  set tot := R.length with htot
  set cnt := countDataRows sheet start_row minCol scanMaxCols scanMaxRows tot with hcnt
  set ratio : ℚ := if 0 < tot then (tc : ℚ) / (tot : ℚ) else 0 with hratio
  by_cases h3 : tc < 3
  · rw [if_pos h3] at h
    exact absurd h (by simp)
  · rw [if_neg h3] at h
    by_cases h9 : ratio < 9/10
    · rw [if_pos h9] at h
      exact absurd h (by simp)
    · rw [if_neg h9] at h
      by_cases h2 : 2 ≤ cnt
      · rw [if_pos h2] at h
        injection h with h
        subst h
        exact ⟨rfl, ratio, cnt, le_of_not_lt h9, h2, rfl, rfl⟩
      · rw [if_neg h2] at h
        exact absurd h (by simp)

lemma heuristic_mem_shape (ws : Worksheet) (c : Candidate)
    (hc : c ∈ find_tabular_ranges_by_heuristics_optimized ws) :
    c.ctype = CandType.heuristic ∧
    ∃ (tr : ℚ) (n : Nat), 9/10 ≤ tr ∧ 2 ≤ n ∧
      c.confidence = min (19/20) (tr + (n : ℚ) * (1/10)) ∧
      c.end_row = c.start_row + n := by
  unfold find_tabular_ranges_by_heuristics_optimized at hc
  cases hd : ws.dimension with
  | none =>
    rw [hd] at hc
    exact absurd hc (by simp)
  | some q =>
    obtain ⟨minCol, minRow, maxCol, maxRow⟩ := q
    rw [hd] at hc
    simp only [List.mem_filterMap] at hc
    obtain ⟨r, -, hr⟩ := hc
    exact heuristic_candidate_at_shape ws _ _ _ r c hr

lemma heuristic_confidence_eq (ws : Worksheet) (c : Candidate)
    (hc : c ∈ find_tabular_ranges_by_heuristics_optimized ws) :
    c.confidence = 19/20 := by
  obtain ⟨-, tr, n, htr, hn, hconf, -⟩ := heuristic_mem_shape ws c hc
  rw [hconf]
  apply min_eq_left
  have hn' : (2 : ℚ) ≤ (n : ℚ) := by exact_mod_cast hn
  linarith

lemma find_tables_confidence (wb : List Worksheet) (fp : String) (c : Candidate)
    (hc : c ∈ find_tables wb fp) :
    (c.ctype = CandType.autofilter_range ∧ c.confidence = 4/5) ∨
    (c.ctype = CandType.heuristic ∧ c.confidence = 19/20) := by
  unfold find_tables at hc
  have hc' : c ∈ autofilter_tables wb fp ++ heuristic_tables wb fp :=
    (List.perm_insertionSort (fun a b => b.confidence ≤ a.confidence) _).subset hc
  rcases List.mem_append.mp hc' with ha | hh
  · left
    simp only [autofilter_tables, List.mem_filterMap] at ha
    obtain ⟨sheet, -, hmk⟩ := ha
    cases href : sheet.autoFilterRef with
    | none =>
      simp only [href] at hmk
      exact Option.noConfusion hmk
    | some ref =>
      simp only [href] at hmk
      cases hp : parse_excel_range ref with
      | error e =>
        simp only [hp] at hmk
        exact Option.noConfusion hmk
      | ok ri =>
        simp only [hp, Option.some.injEq] at hmk
        subst hmk
        exact ⟨rfl, rfl⟩
  · right
    simp only [heuristic_tables, List.mem_flatMap, List.mem_map] at hh
    obtain ⟨sheet, -, c0, hc0, hmk⟩ := hh
    have hshape := heuristic_mem_shape sheet c0 hc0
    have hconf := heuristic_confidence_eq sheet c0 hc0
    subst hmk
    exact ⟨hshape.1, hconf⟩

/-- A small concrete workbook sheet exercised by the witnesses: an AutoFilter
over A1:C3, a text header row and two data rows. -/
def demo_sheet : Worksheet :=
  { name := "S",
    autoFilterRef := Option.some "A1:C3",
    dimension := Option.some (1, 1, 3, 3),
    cell := fun r c =>
      if r = 1 then
        if c = 1 then CellVal.str "H1"
        else if c = 2 then CellVal.str "H2"
        else if c = 3 then CellVal.str "H3"
        else CellVal.none
      else if r ≤ 3 && c ≤ 3 then CellVal.num 7
      else CellVal.none }

/-- The candidate `find_tabular_ranges_by_heuristics_optimized demo_sheet`
returns. -/
def demo_heur_base : Candidate :=
  { ctype := CandType.heuristic,
    ref := Option.some "A1:C3",
    start_row := 1,
    end_row := 3,
    confidence := 19/20,
    headers := ["H1", "H2", "H3"] }

/-- The heuristic candidate `find_tables [demo_sheet] "f"` returns. -/
def demo_heur_candidate : Candidate :=
  { demo_heur_base with sheet := "S", file_path := "f" }

/-- The AutoFilter candidate `find_tables [demo_sheet] "f"` returns. -/
def demo_auto_candidate : Candidate :=
  { ctype := CandType.autofilter_range,
    sheet := "S",
    ref := Option.some "A1:C3",
    start_row := 1,
    end_row := 3,
    start_col := Option.some 1,
    end_col := Option.some 3,
    confidence := 4/5,
    file_path := "f",
    headers := ["H1", "H2", "H3"] }

/-- C4: every heuristic candidate's confidence lies in [0, 0.95] and is
computed as `min(0.95, text_ratio + 0.1 × data_row_count)` with
`text_ratio ≥ 0.9` and at least 2 data rows; every declared-filter-range
(AutoFilter) candidate of a detection pass has confidence exactly 0.8. -/
theorem candidate_confidence_bounds (ws : Worksheet) (wb : List Worksheet)
    (fp : String) :
    (∀ c ∈ find_tabular_ranges_by_heuristics_optimized ws,
      (0 ≤ c.confidence ∧ c.confidence ≤ 19/20) ∧
      ∃ (tr : ℚ) (n : Nat), 9/10 ≤ tr ∧ 2 ≤ n ∧
        c.confidence = min (19/20) (tr + (n : ℚ) * (1/10))) ∧
    (∀ c ∈ find_tables wb fp, c.ctype = CandType.autofilter_range →
      c.confidence = 4/5) := by
  constructor
  · intro c hc
    obtain ⟨-, tr, n, htr, hn, hconf, -⟩ := heuristic_mem_shape ws c hc
    refine ⟨⟨?_, ?_⟩, tr, n, htr, hn, hconf⟩
    · rw [hconf]
      have hn' : (0 : ℚ) ≤ (n : ℚ) := by positivity
      have h1 : (0 : ℚ) ≤ 19/20 := by norm_num
      have h2 : (0 : ℚ) ≤ tr + (n : ℚ) * (1/10) := by linarith
      exact le_min h1 h2
    · rw [hconf]
      exact min_le_left _ _
  · intro c hc hty
    rcases find_tables_confidence wb fp c hc with ⟨-, h⟩ | ⟨hne, -⟩
    · exact h
    · rw [hty] at hne
      exact absurd hne (by simp)

unseal Rat.mul Rat.inv Rat.add Rat.sub in
/-- C4 witness: the theorem at the demo workbook's two candidates. -/
theorem candidate_confidence_bounds_witness :
    (0 ≤ demo_heur_base.confidence ∧ demo_heur_base.confidence ≤ 19/20) ∧
    demo_auto_candidate.confidence = 4/5 := by
  constructor
  · exact ((candidate_confidence_bounds demo_sheet [demo_sheet] "f").1
      demo_heur_base (by decide)).1
  · exact (candidate_confidence_bounds demo_sheet [demo_sheet] "f").2
      demo_auto_candidate (by decide) (by decide)

unseal Rat.mul Rat.inv Rat.add Rat.sub in
/-- C5 (counterexample): the claim says a declared-filter-range candidate's
fixed 0.8 confidence is strictly higher than any heuristic candidate's of the
same pass.  On the demo workbook one pass yields an AutoFilter candidate at
0.8 and a heuristic candidate at 0.95, and 0.95 is not below 0.8. -/
theorem autofilter_higher_confidence_cex :
    ∃ c1 ∈ find_tables [demo_sheet] "f", ∃ c2 ∈ find_tables [demo_sheet] "f",
      c1.ctype = CandType.autofilter_range ∧ c2.ctype = CandType.heuristic ∧
      ¬(c2.confidence < c1.confidence) := by
  decide

/-- C5 (amended): the relation is reversed — for every pair of candidates of
one detection pass, the declared-filter-range candidate's fixed 0.8 is
strictly LOWER than the heuristic candidate's confidence (which is always
0.95). -/
theorem autofilter_vs_heuristic_confidence (wb : List Worksheet) (fp : String)
    (c1 c2 : Candidate) (h1 : c1 ∈ find_tables wb fp) (h2 : c2 ∈ find_tables wb fp)
    (ht1 : c1.ctype = CandType.autofilter_range)
    (ht2 : c2.ctype = CandType.heuristic) :
    c1.confidence < c2.confidence := by
  rcases find_tables_confidence wb fp c1 h1 with ⟨-, hc1⟩ | ⟨hne, -⟩
  · rcases find_tables_confidence wb fp c2 h2 with ⟨hne2, -⟩ | ⟨-, hc2⟩
    · rw [ht2] at hne2
      exact absurd hne2 (by simp)
    · rw [hc1, hc2]
      norm_num
  · rw [ht1] at hne
    exact absurd hne (by simp)

unseal Rat.mul Rat.inv Rat.add Rat.sub in
/-- C5 witness: the amended theorem at the demo workbook's pair. -/
theorem autofilter_vs_heuristic_confidence_witness :
    demo_auto_candidate.confidence < demo_heur_candidate.confidence :=
  autofilter_vs_heuristic_confidence [demo_sheet] "f"
    demo_auto_candidate demo_heur_candidate (by decide) (by decide)
    (by decide) (by decide)

/-- C6: the emission preconditions (text ratio at least 0.9, at least 2 data
rows) force `text_ratio + 0.1 × data_row_count ≥ 1.1`, so the cap saturates:
every heuristic candidate's confidence is exactly 0.95. -/
theorem heuristic_confidence_saturates (ws : Worksheet) (c : Candidate)
    (hc : c ∈ find_tabular_ranges_by_heuristics_optimized ws) :
    c.confidence = 19/20 :=
  heuristic_confidence_eq ws c hc

unseal Rat.mul Rat.inv Rat.add Rat.sub in
/-- C6 witness: the theorem at the demo workbook's heuristic candidate. -/
theorem heuristic_confidence_saturates_witness :
    demo_heur_base.confidence = 19/20 :=
  heuristic_confidence_saturates demo_sheet demo_heur_base (by decide)
